import Mathlib

/-!
Shallow embedding of `src/VShield.js` (an njs IP-whitelist access-control
script) together with proofs about its behaviour.

Modelling conventions:
* The njs shared dictionary `ngx.shared.vs_ip` is a finite association list
  from address strings to `(value, backing ttl)` pairs; `set` replaces any
  previous binding, `delete` removes it.  Availability of the zone
  (`ensureStore`) is modelled by wrapping the dictionary in `Option`:
  `none` means the zone is not configured.
* JavaScript numbers that the script manipulates are exact rationals
  (`ℚ`), with `NaN` a separate constructor of `JsNum`; every value the
  script itself writes is an integer number of milliseconds.
* `Number(string)` coercion is modelled for decimal literals (optional
  sign, digits, optional fractional part, surrounding whitespace); other
  literal forms (exponents, hex, `Infinity`) do not occur in this program
  or its tests.
* `Date.now()` is passed in explicitly as an integer `now` parameter.
* Request/session host objects are records of the fields the script
  reads, and responses record status, body, outgoing headers, and the
  lines written through `r.log` / `r.error`.
-/

namespace VShield

/-- A JavaScript number: either `NaN` or a finite value (exact rational). -/
inductive JsNum where
  | nan : JsNum
  | fin (q : ℚ) : JsNum
deriving DecidableEq

/-- Accumulate a digit string into a natural number. -/
def digitsToNat (cs : List Char) : Nat :=
  cs.foldl (fun a c => a * 10 + (c.toNat - 48)) 0

/-- Parse an unsigned decimal literal (digits, optionally followed by a dot
and more digits).  Returns `none` when the characters are not such a
literal.  Mirrors the decimal-literal part of the ECMAScript `Number`
string coercion used by `parseTtlMs`. -/
def parseDecimal (cs : List Char) : Option ℚ :=
  let intPart := cs.takeWhile Char.isDigit
  let rest := cs.dropWhile Char.isDigit
  match rest with
  | [] => if intPart.isEmpty then none else some ((digitsToNat intPart : ℚ))
  | '.' :: fracPart =>
      if fracPart.all Char.isDigit && !(intPart.isEmpty && fracPart.isEmpty) then
        some ((digitsToNat intPart : ℚ) +
          (digitsToNat fracPart : ℚ) / ((10 : ℚ) ^ fracPart.length))
      else none
  | _ => none

/-- Strip leading and trailing whitespace (the trim step of the
ECMAScript `Number(string)` coercion). -/
def jsTrimChars (cs : List Char) : List Char :=
  ((cs.dropWhile Char.isWhitespace).reverse.dropWhile Char.isWhitespace).reverse

/-- ECMAScript `Number(string)`: trim whitespace, empty string is `0`,
an optionally signed decimal literal is its value, anything else is `NaN`. -/
def jsStringToNumber (s : String) : JsNum :=
  match jsTrimChars s.data with
  | [] => JsNum.fin 0
  | '-' :: rest =>
      match parseDecimal rest with
      | some q => JsNum.fin (-q)
      | none => JsNum.nan
  | '+' :: rest =>
      match parseDecimal rest with
      | some q => JsNum.fin q
      | none => JsNum.nan
  | cs =>
      match parseDecimal cs with
      | some q => JsNum.fin q
      | none => JsNum.nan

/-- The raw `ttlMs` argument reaching `parseTtlMs`: `undefined`, a string
(query parameter), or a number (always an integer in this program). -/
inductive RawTtl where
  | undef : RawTtl
  | str (s : String) : RawTtl
  | int (n : Int) : RawTtl
deriving DecidableEq

/-- ECMAScript `Number(rawTtl)` for the inputs `parseTtlMs` receives:
`Number(undefined)` is `NaN`, a string is coerced, a number is itself. -/
def jsNumberOf : RawTtl → JsNum
  | RawTtl.undef => JsNum.nan
  | RawTtl.str s => jsStringToNumber s
  | RawTtl.int n => JsNum.fin (n : ℚ)

/-- Source `isPositiveInteger(n)`: `Number.isInteger(n) && n > 0`
(`NaN` is not an integer). -/
def isPositiveInteger : JsNum → Bool
  | JsNum.nan => false
  | JsNum.fin q => q.den == 1 && 0 < q.num

/-- The integer value of a `JsNum` known to be an integer (used after the
`isPositiveInteger` guard; the `NaN` branch is never reached there). -/
def JsNum.toInt : JsNum → Int
  | JsNum.nan => 0
  | JsNum.fin q => q.num

/-- Source `DEFAULT_TTL_MS = 120 * 60 * 1000` (2 hours). -/
def DEFAULT_TTL_MS : Int := 120 * 60 * 1000

/-- Source `TTL_REFRESH_THRESHOLD_MS = 60 * 60 * 1000` (1 hour). -/
def TTL_REFRESH_THRESHOLD_MS : Int := 60 * 60 * 1000

/-- Source `parseTtlMs(rawTtl)`: coerce with `Number`, keep a positive
integer, otherwise fall back to the default TTL. -/
def parseTtlMs (rawTtl : RawTtl) : Int :=
  let parsed := jsNumberOf rawTtl
  if isPositiveInteger parsed then parsed.toInt else DEFAULT_TTL_MS

/-- A value stored in the shared dictionary: a number, or a raw string
(only external tampering ever stores a string; the script writes numbers). -/
inductive DictVal where
  | num (n : Int) : DictVal
  | str (s : String) : DictVal
deriving DecidableEq

/-- ECMAScript `Number(value)` for a stored dictionary value. -/
def jsValToNumber : DictVal → JsNum
  | DictVal.num n => JsNum.fin (n : ℚ)
  | DictVal.str s => jsStringToNumber s

/-- `Number(whiteList.get(ip))` where the read may miss
(`Number(undefined)` is `NaN`). -/
def jsOptToNumber : Option DictVal → JsNum
  | none => JsNum.nan
  | some v => jsValToNumber v

/-- The shared dictionary `ngx.shared.vs_ip`: entries are
`(key, value, backing ttl in ms)`; at most one entry per key is maintained
by `set`/`del`. -/
structure Dict where
  entries : List (String × DictVal × Int)
deriving DecidableEq

/-- First binding for `k` in an entry list, with its backing TTL. -/
def lookupEntry : List (String × DictVal × Int) → String → Option (DictVal × Int)
  | [], _ => none
  | (k2, v, t) :: rest, k => if k2 = k then some (v, t) else lookupEntry rest k

/-- Stored value together with the backing TTL supplied at write time. -/
def Dict.getFull (d : Dict) (k : String) : Option (DictVal × Int) :=
  lookupEntry d.entries k

/-- Source `whiteList.get(key)` (`undefined`/`null` are `none`). -/
def Dict.get (d : Dict) (k : String) : Option DictVal :=
  (d.getFull k).map Prod.fst

/-- Source `whiteList.set(key, value, ttl)`: replace any binding for `key`. -/
def Dict.set (d : Dict) (k : String) (v : DictVal) (ttl : Int) : Dict :=
  ⟨(k, v, ttl) :: d.entries.filter (fun e => e.1 != k)⟩

/-- Source `whiteList.delete(key)`. -/
def Dict.del (d : Dict) (k : String) : Dict :=
  ⟨d.entries.filter (fun e => e.1 != k)⟩

/-- Source `whiteList.keys()`. -/
def Dict.keys (d : Dict) : List String :=
  d.entries.map (fun e => e.1)

/-- Source `storeIP(ip, ttlMs)`: normalize the TTL, store the absolute
expiry instant `now + safeTtlMs` as the value and `safeTtlMs` as the
backing TTL. -/
def storeIP (d : Dict) (ip : String) (ttlMs : RawTtl) (now : Int) : Dict :=
  let safeTtlMs := parseTtlMs ttlMs
  d.set ip (DictVal.num (now + safeTtlMs)) safeTtlMs

/-- Source `isAllowed(ip)` at instant `now`, acting on the (possibly
unconfigured) shared dictionary; returns the boolean decision and the
dictionary state afterwards. -/
def isAllowed (w : Option Dict) (ip : String) (now : Int) : Bool × Option Dict :=
  match w with
  | none => (false, none)
  | some d =>
    if ip = "" then (false, some d)
    else
      match d.get ip with
      | none => (false, some d)
      | some raw =>
        match jsValToNumber raw with
        | JsNum.nan => (false, some (d.del ip))
        | JsNum.fin expireAt =>
          if expireAt ≤ (now : ℚ) then (false, some (d.del ip))
          else if expireAt - (now : ℚ) ≤ (TTL_REFRESH_THRESHOLD_MS : ℚ) then
            (true, some (storeIP d ip (RawTtl.int DEFAULT_TTL_MS) now))
          else (true, some d)

/-- The fields of the njs request object that `VShield.js` reads:
`r.remoteAddress`, `r.args.ip`, `r.args.timeout`, and the
`$vshield_user` variable the README wires up for audit attribution
(the script never actually reads it — see the audit theorems). -/
structure Request where
  remoteAddress : String
  argsIp : Option String
  argsTimeout : Option String
  vshieldUser : Option String
deriving DecidableEq

/-- What an HTTP handler did to the request: the `r.return` status and
body, the outgoing headers it set, and the `r.log` / `r.error` lines. -/
structure HttpResponse where
  status : Nat
  body : String
  headersOut : List (String × String)
  logs : List String
  errors : List String
deriving DecidableEq

/-- Source `http_verify(r)` at instant `now`. -/
def http_verify (w : Option Dict) (r : Request) (now : Int) :
    HttpResponse × Option Dict :=
  match w with
  | none =>
    ({ status := 500, body := "VShield storage is not configured",
       headersOut := [], logs := [],
       errors := ["vs_ip shared dict is not configured"] }, none)
  | some d =>
    let clientIP := r.remoteAddress
    let res := isAllowed (some d) clientIP now
    if res.1 then
      ({ status := 200, body := "OK", headersOut := [],
         logs := ["http_verify allowed IP address: " ++ clientIP],
         errors := [] }, res.2)
    else
      ({ status := 403, body := "Forbidden", headersOut := [],
         logs := [],
         errors := ["http_verify denied IP address: " ++ clientIP] }, res.2)

/-- Outcome of a stream session handler: `s.allow()` or `s.deny()`. -/
inductive StreamDecision where
  | allow : StreamDecision
  | deny : StreamDecision
deriving DecidableEq

/-- What `stream_verify` did to the session. -/
structure StreamResult where
  decision : StreamDecision
  logs : List String
  errors : List String
deriving DecidableEq

/-- Source `stream_verify(s)` at instant `now`. -/
def stream_verify (w : Option Dict) (remoteAddress : String) (now : Int) :
    StreamResult × Option Dict :=
  match w with
  | none =>
    ({ decision := StreamDecision.deny, logs := [],
       errors := ["vs_ip shared dict is not configured"] }, none)
  | some d =>
    let res := isAllowed (some d) remoteAddress now
    if res.1 then
      ({ decision := StreamDecision.allow,
         logs := ["stream_verify allowed IP address: " ++ remoteAddress],
         errors := [] }, res.2)
    else
      ({ decision := StreamDecision.deny, logs := [],
         errors := ["stream_verify denied IP address: " ++ remoteAddress] },
       res.2)

/-- Source `register(r)` at instant `now`: self-register the caller's
source address with the default TTL. -/
def register (w : Option Dict) (r : Request) (now : Int) :
    HttpResponse × Option Dict :=
  match w with
  | none =>
    ({ status := 500, body := "VShield storage is not configured",
       headersOut := [], logs := [], errors := [] }, none)
  | some d =>
    let clientIP := r.remoteAddress
    if clientIP = "" then
      ({ status := 400, body := "Missing client IP", headersOut := [],
         logs := [], errors := [] }, some d)
    else
      ({ status := 200, body := clientIP ++ " is registered",
         headersOut := [], logs := [], errors := [] },
       some (storeIP d clientIP (RawTtl.int DEFAULT_TTL_MS) now))

/-- Source `cancel(r)`: self-remove the caller's source address. -/
def cancel (w : Option Dict) (r : Request) : HttpResponse × Option Dict :=
  match w with
  | none =>
    ({ status := 500, body := "VShield storage is not configured",
       headersOut := [], logs := [], errors := [] }, none)
  | some d =>
    let clientIP := r.remoteAddress
    if clientIP = "" then
      ({ status := 400, body := "Missing client IP", headersOut := [],
         logs := [], errors := [] }, some d)
    else
      ({ status := 200, body := clientIP ++ " is unregistered",
         headersOut := [], logs := [], errors := [] },
       some (d.del clientIP))

/-- The raw `r.args.timeout` value as it reaches `parseTtlMs` inside
`adminRegister`: `undefined` when the query parameter is absent,
otherwise the string. -/
def rawTimeoutOf (r : Request) : RawTtl :=
  match r.argsTimeout with
  | none => RawTtl.undef
  | some s => RawTtl.str s

/-- JavaScript truthiness test for `r.args.ip` (`undefined` and the empty
string are falsy). -/
def argsIpOf (r : Request) : Option String :=
  match r.argsIp with
  | none => none
  | some s => if s = "" then none else some s

/-- Source `adminRegister(r)` at instant `now`: register an explicit
target address, with an optional `timeout` query parameter in ms. -/
def adminRegister (w : Option Dict) (r : Request) (now : Int) :
    HttpResponse × Option Dict :=
  match w with
  | none =>
    ({ status := 500, body := "VShield storage is not configured",
       headersOut := [], logs := [], errors := [] }, none)
  | some d =>
    match argsIpOf r with
    | none =>
      ({ status := 400, body := "Missing query parameter: ip",
         headersOut := [], logs := [], errors := [] }, some d)
    | some clientIP =>
      let ttlMs := parseTtlMs (rawTimeoutOf r)
      ({ status := 200, body := clientIP ++ " is registered",
         headersOut := [], logs := [], errors := [] },
       some (storeIP d clientIP (RawTtl.int ttlMs) now))

/-- Source `adminCancel(r)`: remove an explicit target address. -/
def adminCancel (w : Option Dict) (r : Request) : HttpResponse × Option Dict :=
  match w with
  | none =>
    ({ status := 500, body := "VShield storage is not configured",
       headersOut := [], logs := [], errors := [] }, none)
  | some d =>
    match argsIpOf r with
    | none =>
      ({ status := 400, body := "Missing query parameter: ip",
         headersOut := [], logs := [], errors := [] }, some d)
    | some clientIP =>
      ({ status := 200, body := clientIP ++ " is unregistered",
         headersOut := [], logs := [], errors := [] },
       some (d.del clientIP))

/-- Left-pad a natural number with zeros to two digits. -/
def pad2 (n : Nat) : String :=
  if n < 10 then "0" ++ toString n else toString n

/-- Left-pad a natural number with zeros to three digits. -/
def pad3 (n : Nat) : String :=
  if n < 10 then "00" ++ toString n
  else if n < 100 then "0" ++ toString n
  else toString n

/-- Left-pad a natural number with zeros to four digits. -/
def pad4 (n : Nat) : String :=
  if n < 10 then "000" ++ toString n
  else if n < 100 then "00" ++ toString n
  else if n < 1000 then "0" ++ toString n
  else toString n

/-- Proleptic-Gregorian civil date from a count of days since the Unix
epoch (the standard days-from-civil inverse used by date libraries);
yields `(year, month, day)`. -/
def civilFromDays (z0 : Int) : Int × Nat × Nat :=
  let z := z0 + 719468
  let era := z.ediv 146097
  let doe := (z - era * 146097).toNat
  let yoe := (doe - doe / 1460 + doe / 36524 - doe / 146096) / 365
  let doy := doe - (365 * yoe + yoe / 4 - yoe / 100)
  let mp := (5 * doy + 2) / 153
  let d := doy - (153 * mp + 2) / 5 + 1
  let m := if mp < 10 then mp + 3 else mp - 9
  ((era * 400 + (yoe : Int) + (if m ≤ 2 then 1 else 0)), m, d)

/-- `new Date(ms).toISOString()` for an integral millisecond timestamp
with year in 0..9999: `YYYY-MM-DDTHH:MM:SS.mmmZ`. -/
def toISOString (ms : Int) : String :=
  let day := ms.ediv 86400000
  let msOfDay := (ms.emod 86400000).toNat
  let ymd := civilFromDays day
  let y := ymd.1
  let yStr := if 0 ≤ y then pad4 y.toNat else "-" ++ pad4 (-y).toNat
  yStr ++ "-" ++ pad2 ymd.2.1 ++ "-" ++ pad2 ymd.2.2 ++ "T" ++
    pad2 (msOfDay / 3600000) ++ ":" ++ pad2 (msOfDay % 3600000 / 60000) ++ ":" ++
    pad2 (msOfDay % 60000 / 1000) ++ "." ++ pad3 (msOfDay % 1000) ++ "Z"

/-- Truncation toward zero applied by `new Date(value)` (`TimeClip`). -/
def jsTrunc (q : ℚ) : Int := q.num / (q.den : Int)

/-- The loop body of `adminWhiteList`: for each key, coerce the stored
value with `Number`, skip `NaN`, and render the expiry as an ISO string. -/
def adminWhiteListEntries (d : Dict) : List (String × String) :=
  d.keys.filterMap (fun ip =>
    match jsOptToNumber (d.get ip) with
    | JsNum.nan => none
    | JsNum.fin q => some (ip, toISOString (jsTrunc q)))

/-- Render one `{ip, expireAt}` JSON object. -/
def jsonEntry (e : String × String) : String :=
  "\x7b\"ip\":\"" ++ e.1 ++ "\",\"expireAt\":\"" ++ e.2 ++ "\"\x7d"

/-- Source `adminWhiteList(r)`: list the whitelist as a JSON array. -/
def adminWhiteList (w : Option Dict) : HttpResponse × Option Dict :=
  match w with
  | none =>
    ({ status := 500, body := "VShield storage is not configured",
       headersOut := [], logs := [], errors := [] }, none)
  | some d =>
    ({ status := 200,
       body := "[" ++ String.intercalate ","
         ((adminWhiteListEntries d).map jsonEntry) ++ "]",
       headersOut := [("Content-Type", "application/json; charset=utf-8")],
       logs := [], errors := [] }, some d)

/-! ### Dictionary lemmas -/

theorem lookupEntry_filter_ne (l : List (String × DictVal × Int)) (k : String) :
    lookupEntry (l.filter (fun e => e.1 != k)) k = none := by
  induction l with
  | nil => rfl
  | cons e rest ih =>
    by_cases h : e.1 = k
    · simp [List.filter_cons, h, ih]
    · simp [List.filter_cons, h, lookupEntry, ih]

theorem lookupEntry_none_filter (l : List (String × DictVal × Int)) (k : String)
    (h : lookupEntry l k = none) : l.filter (fun e => e.1 != k) = l := by
  induction l with
  | nil => rfl
  | cons e rest ih =>
    by_cases he : e.1 = k
    · simp [lookupEntry, he] at h
    · simp only [lookupEntry, if_neg he] at h
      simp [List.filter_cons, he, ih h]

theorem Dict.getFull_set_self (d : Dict) (k : String) (v : DictVal) (t : Int) :
    (d.set k v t).getFull k = some (v, t) := by
  simp [Dict.set, Dict.getFull, lookupEntry]

theorem Dict.get_set_self (d : Dict) (k : String) (v : DictVal) (t : Int) :
    (d.set k v t).get k = some v := by
  simp [Dict.get, Dict.getFull_set_self]

theorem Dict.getFull_del_self (d : Dict) (k : String) :
    (d.del k).getFull k = none := by
  simp [Dict.del, Dict.getFull, lookupEntry_filter_ne]

theorem Dict.get_del_self (d : Dict) (k : String) : (d.del k).get k = none := by
  simp [Dict.get, Dict.getFull_del_self]

theorem Dict.del_del (d : Dict) (k : String) :
    (d.del k).del k = d.del k := by
  obtain ⟨l⟩ := d
  simp [Dict.del, List.filter_filter]

theorem Dict.del_of_get_none (d : Dict) (k : String) (h : d.get k = none) :
    d.del k = d := by
  obtain ⟨l⟩ := d
  simp only [Dict.get, Dict.getFull, Option.map_eq_none'] at h
  simp [Dict.del, lookupEntry_none_filter l k h]

/-! ### TTL parsing lemmas -/

theorem parseTtlMs_int_of_pos {n : Int} (h : 0 < n) :
    parseTtlMs (RawTtl.int n) = n := by
  simp [parseTtlMs, jsNumberOf, isPositiveInteger, JsNum.toInt,
    Rat.den_intCast, Rat.num_intCast, h]

theorem DEFAULT_TTL_MS_pos : (0 : Int) < DEFAULT_TTL_MS := by decide

theorem parseTtlMs_pos (raw : RawTtl) : 0 < parseTtlMs raw := by
  unfold parseTtlMs
  cases h : jsNumberOf raw with
  | nan => simpa [isPositiveInteger] using DEFAULT_TTL_MS_pos
  | fin q =>
    by_cases h1 : q.den = 1
    · by_cases h2 : 0 < q.num
      · simp [isPositiveInteger, h1, h2, JsNum.toInt]
      · simpa [isPositiveInteger, h1, h2] using DEFAULT_TTL_MS_pos
    · simpa [isPositiveInteger, h1] using DEFAULT_TTL_MS_pos

/-- Unfolding of `isAllowed` on a present, numeric entry, with the time
comparisons expressed over `ℤ`. -/
theorem isAllowed_get_num (d : Dict) (A : String) (E now : Int) (hA : A ≠ "")
    (hget : d.get A = some (DictVal.num E)) :
    isAllowed (some d) A now =
      if E ≤ now then (false, some (d.del A))
      else if E - now ≤ TTL_REFRESH_THRESHOLD_MS then
        (true, some (storeIP d A (RawTtl.int DEFAULT_TTL_MS) now))
      else (true, some d) := by
  simp only [isAllowed, if_neg hA, hget, jsValToNumber]
  simp only [← Int.cast_sub, Int.cast_le]

theorem storeIP_eq_set (d : Dict) (ip : String) (raw : RawTtl) (now : Int) :
    storeIP d ip raw now
      = d.set ip (DictVal.num (now + parseTtlMs raw)) (parseTtlMs raw) := rfl

theorem storeIP_default (d : Dict) (ip : String) (now : Int) :
    storeIP d ip (RawTtl.int DEFAULT_TTL_MS) now
      = d.set ip (DictVal.num (now + DEFAULT_TTL_MS)) DEFAULT_TTL_MS := by
  rw [storeIP_eq_set, parseTtlMs_int_of_pos DEFAULT_TTL_MS_pos]

/-! ### Claim theorems -/

/-- C1: for a non-empty address `A` with the store available: if `A` is
absent the check denies; if `A` was registered at time `T` with TTL
`D = parseTtlMs raw`, a check at `T' < T + D` allows; a check at
`T + D` or later denies and removes the entry, so a subsequent check on
`A` also denies and the store no longer contains `A`. -/
theorem isAllowed_register_lifecycle (d : Dict) (A : String) (raw : RawTtl)
    (T Tq : Int) (hA : A ≠ "") :
    (Dict.get d A = none → (isAllowed (some d) A Tq).1 = false) ∧
    (Tq < T + parseTtlMs raw →
      (isAllowed (some (storeIP d A raw T)) A Tq).1 = true) ∧
    (T + parseTtlMs raw ≤ Tq →
      isAllowed (some (storeIP d A raw T)) A Tq
        = (false, some (Dict.del (storeIP d A raw T) A)) ∧
      Dict.get (Dict.del (storeIP d A raw T) A) A = none ∧
      (isAllowed (some (Dict.del (storeIP d A raw T) A)) A Tq).1 = false) := by
  have hget : (storeIP d A raw T).get A
      = some (DictVal.num (T + parseTtlMs raw)) := by
    rw [storeIP_eq_set]; exact Dict.get_set_self ..
  refine ⟨?_, ?_, ?_⟩
  · intro h
    simp [isAllowed, hA, h]
  · intro h
    rw [isAllowed_get_num _ _ _ _ hA hget, if_neg (by omega)]
    split_ifs <;> rfl
  · intro h
    refine ⟨?_, Dict.get_del_self .., ?_⟩
    · rw [isAllowed_get_num _ _ _ _ hA hget, if_pos h]
    · simp [isAllowed, hA, Dict.get_del_self]

theorem isAllowed_register_lifecycle_witness :
    "192.0.2.1" ≠ "" ∧
    ((Dict.get (Dict.mk []) "192.0.2.1" = none →
        (isAllowed (some (Dict.mk [])) "192.0.2.1" 600000).1 = false) ∧
     (600000 < 0 + parseTtlMs (RawTtl.int 600000) →
        (isAllowed
          (some (storeIP (Dict.mk []) "192.0.2.1" (RawTtl.int 600000) 0))
          "192.0.2.1" 600000).1 = true) ∧
     (0 + parseTtlMs (RawTtl.int 600000) ≤ 600000 →
        isAllowed
          (some (storeIP (Dict.mk []) "192.0.2.1" (RawTtl.int 600000) 0))
          "192.0.2.1" 600000
          = (false, some (Dict.del
              (storeIP (Dict.mk []) "192.0.2.1" (RawTtl.int 600000) 0)
              "192.0.2.1")) ∧
        Dict.get (Dict.del
            (storeIP (Dict.mk []) "192.0.2.1" (RawTtl.int 600000) 0)
            "192.0.2.1") "192.0.2.1" = none ∧
        (isAllowed (some (Dict.del
            (storeIP (Dict.mk []) "192.0.2.1" (RawTtl.int 600000) 0)
            "192.0.2.1")) "192.0.2.1" 600000).1 = false)) :=
  ⟨by decide,
   isAllowed_register_lifecycle (Dict.mk []) "192.0.2.1" (RawTtl.int 600000)
     0 600000 (by decide)⟩

/-- C2: a check on a registered entry with `0 < expiresAt - now` at most
the renewal threshold (3,600,000 ms) allows and rewrites the entry so
that the new expiry is `now + 7,200,000` with the backing TTL the same
7,200,000 ms; with remaining lifetime strictly above the threshold the
check allows without rewriting the entry. -/
theorem isAllowed_renewal (d : Dict) (A : String) (E T : Int) (hA : A ≠ "")
    (hget : Dict.get d A = some (DictVal.num E)) :
    DEFAULT_TTL_MS = 7200000 ∧ TTL_REFRESH_THRESHOLD_MS = 3600000 ∧
    (T < E → E - T ≤ TTL_REFRESH_THRESHOLD_MS →
      isAllowed (some d) A T =
        (true, some (Dict.set d A (DictVal.num (T + DEFAULT_TTL_MS))
          DEFAULT_TTL_MS))) ∧
    (T < E → TTL_REFRESH_THRESHOLD_MS < E - T →
      isAllowed (some d) A T = (true, some d)) := by
  refine ⟨by decide, by decide, ?_, ?_⟩
  · intro h1 h2
    rw [isAllowed_get_num _ _ _ _ hA hget, if_neg (by omega), if_pos h2,
      storeIP_default]
  · intro h1 h2
    rw [isAllowed_get_num _ _ _ _ hA hget, if_neg (by omega),
      if_neg (by omega)]

theorem isAllowed_renewal_witness :
    "203.0.113.10" ≠ "" ∧
    Dict.get (Dict.mk [("203.0.113.10", DictVal.num 1700000001000, 1000)])
      "203.0.113.10" = some (DictVal.num 1700000001000) ∧
    (DEFAULT_TTL_MS = 7200000 ∧ TTL_REFRESH_THRESHOLD_MS = 3600000 ∧
     ((1700000000000 : Int) < 1700000001000 →
       (1700000001000 : Int) - 1700000000000 ≤ TTL_REFRESH_THRESHOLD_MS →
       isAllowed
         (some (Dict.mk [("203.0.113.10", DictVal.num 1700000001000, 1000)]))
         "203.0.113.10" 1700000000000 =
         (true, some (Dict.set
           (Dict.mk [("203.0.113.10", DictVal.num 1700000001000, 1000)])
           "203.0.113.10"
           (DictVal.num (1700000000000 + DEFAULT_TTL_MS)) DEFAULT_TTL_MS))) ∧
     ((1700000000000 : Int) < 1700000001000 →
       TTL_REFRESH_THRESHOLD_MS < (1700000001000 : Int) - 1700000000000 →
       isAllowed
         (some (Dict.mk [("203.0.113.10", DictVal.num 1700000001000, 1000)]))
         "203.0.113.10" 1700000000000 =
         (true, some (Dict.mk
           [("203.0.113.10", DictVal.num 1700000001000, 1000)])))) :=
  ⟨by decide, by decide,
   isAllowed_renewal
     (Dict.mk [("203.0.113.10", DictVal.num 1700000001000, 1000)])
     "203.0.113.10" 1700000001000 1700000000000 (by decide) (by decide)⟩

/-- C3 (code bug): the handlers emit no audit record at all.  Evaluated at
the inputs of the repository's own tests (caller `203.0.113.10` with
resolved actor `alice@example.com`; admin registering `192.0.2.8` as
`admin`), a self register, self cancel, and admin register each produce an
empty log and error list — no record with `actor`/`action`/outcome fields
exists, although the tests assert lines such as `action=register_self`
and `actor=alice@example.com`. -/
theorem register_no_audit_record :
    (register (some (Dict.mk []))
      (Request.mk "203.0.113.10" none none (some "alice@example.com"))
      1700000000000).1.logs = [] ∧
    (register (some (Dict.mk []))
      (Request.mk "203.0.113.10" none none (some "alice@example.com"))
      1700000000000).1.errors = [] ∧
    (cancel (some (Dict.mk []))
      (Request.mk "203.0.113.10" none none
        (some "alice@example.com"))).1.logs = [] ∧
    (adminRegister (some (Dict.mk []))
      (Request.mk "" (some "192.0.2.8") (some "600000") (some "admin"))
      1700000000000).1.logs = [] ∧
    (adminCancel (some (Dict.mk []))
      (Request.mk "" (some "192.0.2.8") none (some "admin"))).1.logs = [] := by
  decide

/-- C4 (code bug): a denied HTTP check carries no machine-readable reason
header.  At the failing input of the repository's own test (store
configured, unregistered address `198.51.100.20`), `http_verify` returns
status 403 with body `"Forbidden"` and an empty outgoing-header set, so
no `X-VShield-Reason: IP_NOT_REGISTERED` header exists; with the store
unavailable the handler returns 500 (not a forbidden status), again with
no headers. -/
theorem http_verify_no_reason_header :
    http_verify (some (Dict.mk []))
      (Request.mk "198.51.100.20" none none none) 1700000000000
      = (HttpResponse.mk 403 "Forbidden" [] []
          ["http_verify denied IP address: 198.51.100.20"],
         some (Dict.mk [])) ∧
    (http_verify none (Request.mk "198.51.100.20" none none none)
      1700000000000).1
      = HttpResponse.mk 500 "VShield storage is not configured" [] []
          ["vs_ip shared dict is not configured"] := by
  decide

/-- C5 counterexample: the claim attributes reason `STORE_UNAVAILABLE` to
the denial, but at the concrete trigger inputs the code exposes no reason
at all: with the store unavailable `http_verify` answers 500 (not a
deny-with-reason) with an empty header set and a body that is not
`STORE_UNAVAILABLE`; with an empty source address it answers a bare
403 `"Forbidden"` with an empty header set. -/
theorem storeUnavailable_reason_counterexample :
    (http_verify none (Request.mk "203.0.113.10" none none none) 0).1.status
      = 500 ∧
    (http_verify none
      (Request.mk "203.0.113.10" none none none) 0).1.headersOut = [] ∧
    (http_verify none (Request.mk "203.0.113.10" none none none) 0).1.body
      = "VShield storage is not configured" ∧
    (http_verify (some (Dict.mk [])) (Request.mk "" none none none) 0).1.status
      = 403 ∧
    (http_verify (some (Dict.mk []))
      (Request.mk "" none none none) 0).1.headersOut = [] ∧
    (http_verify (some (Dict.mk [])) (Request.mk "" none none none) 0).1.body
      = "Forbidden" ∧
    (stream_verify none "203.0.113.10" 0).1
      = StreamResult.mk StreamDecision.deny []
          ["vs_ip shared dict is not configured"] := by
  decide

/-- C5 amended: for every check (HTTP request gate and stream connection
gate), if the source address is empty or the store is unavailable, the
check denies — `isAllowed` is false, the stream session is denied, and
the HTTP handler never answers 200 — fail closed, never fail open (no
`STORE_UNAVAILABLE` reason code accompanies the denial). -/
theorem checks_fail_closed (w : Option Dict) (r : Request) (now : Int)
    (h : r.remoteAddress = "" ∨ w = none) :
    (isAllowed w r.remoteAddress now).1 = false ∧
    (http_verify w r now).1.status ≠ 200 ∧
    (stream_verify w r.remoteAddress now).1.decision = StreamDecision.deny := by
  have hfalse : (isAllowed w r.remoteAddress now).1 = false := by
    rcases h with h | h
    · cases w with
      | none => rfl
      | some d => simp [isAllowed, h]
    · subst h; rfl
  refine ⟨hfalse, ?_, ?_⟩
  · cases w with
    | none => simp [http_verify]
    | some d => simp [http_verify, hfalse]
  · cases w with
    | none => simp [stream_verify]
    | some d => simp [stream_verify, hfalse]

theorem checks_fail_closed_witness :
    ((Request.mk "" none none none).remoteAddress = "" ∨
      (some (Dict.mk [("1.2.3.4", DictVal.num 99, 1)]) : Option Dict)
        = none) ∧
    ((isAllowed (some (Dict.mk [("1.2.3.4", DictVal.num 99, 1)]))
        (Request.mk "" none none none).remoteAddress 0).1 = false ∧
     (http_verify (some (Dict.mk [("1.2.3.4", DictVal.num 99, 1)]))
        (Request.mk "" none none none) 0).1.status ≠ 200 ∧
     (stream_verify (some (Dict.mk [("1.2.3.4", DictVal.num 99, 1)]))
        (Request.mk "" none none none).remoteAddress 0).1.decision
       = StreamDecision.deny) :=
  ⟨Or.inl rfl,
   checks_fail_closed (some (Dict.mk [("1.2.3.4", DictVal.num 99, 1)]))
     (Request.mk "" none none none) 0 (Or.inl rfl)⟩

/-- C6: `adminRegister` with target `ip` at time `now`: a raw `timeout`
that coerces to a positive integer `N` stores expiry `now + N` with
backing TTL `N`; any raw value that is not a positive integer (missing,
non-numeric, zero, negative, fractional) silently falls back to the
default, storing expiry `now + 7,200,000`. -/
theorem adminRegister_timeout (d : Dict) (r : Request) (now N : Int)
    (ip : String) (hip : argsIpOf r = some ip) :
    DEFAULT_TTL_MS = 7200000 ∧
    (jsNumberOf (rawTimeoutOf r) = JsNum.fin (N : ℚ) → 0 < N →
      (adminRegister (some d) r now).2
        = some (Dict.set d ip (DictVal.num (now + N)) N)) ∧
    (isPositiveInteger (jsNumberOf (rawTimeoutOf r)) = false →
      (adminRegister (some d) r now).2
        = some (Dict.set d ip (DictVal.num (now + DEFAULT_TTL_MS))
            DEFAULT_TTL_MS)) := by
  refine ⟨by decide, ?_, ?_⟩
  · intro hfin hpos
    have hparse : parseTtlMs (rawTimeoutOf r) = N := by
      simp [parseTtlMs, hfin, isPositiveInteger, JsNum.toInt,
        Rat.den_intCast, Rat.num_intCast, hpos]
    simp [adminRegister, hip, hparse, storeIP_eq_set,
      parseTtlMs_int_of_pos hpos]
  · intro hneg
    have hparse : parseTtlMs (rawTimeoutOf r) = DEFAULT_TTL_MS := by
      simp [parseTtlMs, hneg]
    simp [adminRegister, hip, hparse, storeIP_eq_set,
      parseTtlMs_int_of_pos DEFAULT_TTL_MS_pos]

theorem adminRegister_timeout_witness :
    argsIpOf (Request.mk "" (some "192.0.2.8") (some "600000") none)
      = some "192.0.2.8" ∧
    (DEFAULT_TTL_MS = 7200000 ∧
     (jsNumberOf (rawTimeoutOf
         (Request.mk "" (some "192.0.2.8") (some "600000") none))
        = JsNum.fin ((600000 : Int) : ℚ) → (0 : Int) < 600000 →
       (adminRegister (some (Dict.mk []))
         (Request.mk "" (some "192.0.2.8") (some "600000") none)
         1700000000000).2
         = some (Dict.set (Dict.mk []) "192.0.2.8"
             (DictVal.num (1700000000000 + 600000)) 600000)) ∧
     (isPositiveInteger (jsNumberOf (rawTimeoutOf
         (Request.mk "" (some "192.0.2.8") (some "600000") none))) = false →
       (adminRegister (some (Dict.mk []))
         (Request.mk "" (some "192.0.2.8") (some "600000") none)
         1700000000000).2
         = some (Dict.set (Dict.mk []) "192.0.2.8"
             (DictVal.num (1700000000000 + DEFAULT_TTL_MS))
             DEFAULT_TTL_MS))) :=
  ⟨by decide,
   adminRegister_timeout (Dict.mk [])
     (Request.mk "" (some "192.0.2.8") (some "600000") none)
     1700000000000 600000 "192.0.2.8" (by decide)⟩

/-- C7: every write performed through `storeIP` (self register, admin
register, and renewal all call it) stores value `now + ttl` and passes
that same `ttl` as the backing TTL to the store, with `ttl` positive, so
the physical eviction deadline `now + ttl` and the logical expiry
coincide. -/
theorem storeIP_expiry_ttl_consistent (d : Dict) (ip : String)
    (raw : RawTtl) (now : Int) :
    0 < parseTtlMs raw ∧
    Dict.getFull (storeIP d ip raw now) ip
      = some (DictVal.num (now + parseTtlMs raw), parseTtlMs raw) := by
  refine ⟨parseTtlMs_pos raw, ?_⟩
  rw [storeIP_eq_set]
  exact Dict.getFull_set_self ..

theorem lookupEntry_of_mem_nodup {l : List (String × DictVal × Int)}
    {k : String} {v : DictVal} {t : Int}
    (hm : (k, v, t) ∈ l) (hnd : (l.map (fun e => e.1)).Nodup) :
    lookupEntry l k = some (v, t) := by
  induction l with
  | nil => cases hm
  | cons e rest ih =>
    have hnd' : e.1 ∉ rest.map (fun e => e.1) ∧
        (rest.map (fun e => e.1)).Nodup := by
      simpa [List.nodup_cons] using hnd
    rcases List.mem_cons.mp hm with h | h
    · subst h
      simp [lookupEntry]
    · have hk : k ∈ rest.map (fun e => e.1) :=
        List.mem_map.mpr ⟨(k, v, t), h, rfl⟩
      have hne : e.1 ≠ k := fun hek => hnd'.1 (hek ▸ hk)
      simp [lookupEntry, hne, ih h hnd'.2]

/-- C8: for a store whose keys are distinct (the invariant `set`/`del`
maintain), `adminWhiteList` skips, without error, every entry whose
stored value does not coerce to a number, includes every numerically
valid entry as an (address, expiry) pair with the expiry rendered as an
ISO-8601 timestamp string, and answers 200. -/
theorem adminWhiteList_filters (d : Dict)
    (hnd : (d.entries.map (fun e => e.1)).Nodup) :
    (∀ k v t, (k, v, t) ∈ d.entries → jsValToNumber v = JsNum.nan →
      ∀ s, (k, s) ∉ adminWhiteListEntries d) ∧
    (∀ k v t q, (k, v, t) ∈ d.entries → jsValToNumber v = JsNum.fin q →
      (k, toISOString (jsTrunc q)) ∈ adminWhiteListEntries d) ∧
    (adminWhiteList (some d)).1.status = 200 := by
  refine ⟨?_, ?_, rfl⟩
  · intro k v t hm hnan s hmem
    have hget : d.get k = some v := by
      simp [Dict.get, Dict.getFull, lookupEntry_of_mem_nodup hm hnd]
    rw [adminWhiteListEntries, List.mem_filterMap] at hmem
    obtain ⟨a, _, hfa⟩ := hmem
    cases hja : jsOptToNumber (d.get a) with
    | nan => rw [hja] at hfa; cases hfa
    | fin q =>
      rw [hja] at hfa
      have hak : a = k := congrArg Prod.fst (Option.some.inj hfa)
      rw [hak, hget] at hja
      simp [jsOptToNumber, hnan] at hja
  · intro k v t q hm hfin
    have hget : d.get k = some v := by
      simp [Dict.get, Dict.getFull, lookupEntry_of_mem_nodup hm hnd]
    rw [adminWhiteListEntries, List.mem_filterMap]
    refine ⟨k, List.mem_map.mpr ⟨(k, v, t), hm, rfl⟩, ?_⟩
    rw [hget]
    simp [jsOptToNumber, hfin]

theorem adminWhiteList_filters_witness :
    (((Dict.mk [("192.0.2.1", DictVal.num 1700000010000, 1000),
        ("192.0.2.2", DictVal.str "not-a-number", 1000)]).entries.map
        (fun e => e.1)).Nodup) ∧
    ("192.0.2.2", "2023-11-14T22:13:30.000Z") ∉
      adminWhiteListEntries
        (Dict.mk [("192.0.2.1", DictVal.num 1700000010000, 1000),
          ("192.0.2.2", DictVal.str "not-a-number", 1000)]) ∧
    ("192.0.2.1", toISOString (jsTrunc ((1700000010000 : Int) : ℚ))) ∈
      adminWhiteListEntries
        (Dict.mk [("192.0.2.1", DictVal.num 1700000010000, 1000),
          ("192.0.2.2", DictVal.str "not-a-number", 1000)]) :=
  ⟨by decide,
   (adminWhiteList_filters
      (Dict.mk [("192.0.2.1", DictVal.num 1700000010000, 1000),
        ("192.0.2.2", DictVal.str "not-a-number", 1000)]) (by decide)).1
     "192.0.2.2" (DictVal.str "not-a-number") 1000 (by decide) (by decide)
     "2023-11-14T22:13:30.000Z",
   (adminWhiteList_filters
      (Dict.mk [("192.0.2.1", DictVal.num 1700000010000, 1000),
        ("192.0.2.2", DictVal.str "not-a-number", 1000)]) (by decide)).2.1
     "192.0.2.1" (DictVal.num 1700000010000) 1000 ((1700000010000 : Int) : ℚ)
     (by decide) (by decide)⟩

/-- C9: cancellation is idempotent: self cancel and admin cancel both
answer 200 with no error output and delete the address unconditionally;
deleting an absent address leaves the store unchanged, deleting twice
equals deleting once, and the address is absent afterwards. -/
theorem cancel_idempotent (d : Dict) (r : Request) (ip : String)
    (hra : r.remoteAddress = ip) (hai : argsIpOf r = some ip)
    (hne : ip ≠ "") :
    cancel (some d) r
      = (HttpResponse.mk 200 (ip ++ " is unregistered") [] [] [],
         some (Dict.del d ip)) ∧
    adminCancel (some d) r
      = (HttpResponse.mk 200 (ip ++ " is unregistered") [] [] [],
         some (Dict.del d ip)) ∧
    (Dict.get d ip = none → Dict.del d ip = d) ∧
    Dict.del (Dict.del d ip) ip = Dict.del d ip ∧
    Dict.get (Dict.del d ip) ip = none := by
  refine ⟨?_, ?_, Dict.del_of_get_none d ip, Dict.del_del d ip,
    Dict.get_del_self d ip⟩
  · simp [cancel, hra, hne]
  · simp [adminCancel, hai]

theorem cancel_idempotent_witness :
    (Request.mk "10.1.1.1" (some "10.1.1.1") none none).remoteAddress
      = "10.1.1.1" ∧
    argsIpOf (Request.mk "10.1.1.1" (some "10.1.1.1") none none)
      = some "10.1.1.1" ∧
    "10.1.1.1" ≠ "" ∧
    (cancel (some (Dict.mk []))
        (Request.mk "10.1.1.1" (some "10.1.1.1") none none)
      = (HttpResponse.mk 200 ("10.1.1.1" ++ " is unregistered") [] [] [],
         some (Dict.del (Dict.mk []) "10.1.1.1")) ∧
     adminCancel (some (Dict.mk []))
        (Request.mk "10.1.1.1" (some "10.1.1.1") none none)
      = (HttpResponse.mk 200 ("10.1.1.1" ++ " is unregistered") [] [] [],
         some (Dict.del (Dict.mk []) "10.1.1.1")) ∧
     (Dict.get (Dict.mk []) "10.1.1.1" = none →
       Dict.del (Dict.mk []) "10.1.1.1" = Dict.mk []) ∧
     Dict.del (Dict.del (Dict.mk []) "10.1.1.1") "10.1.1.1"
       = Dict.del (Dict.mk []) "10.1.1.1" ∧
     Dict.get (Dict.del (Dict.mk []) "10.1.1.1") "10.1.1.1" = none) :=
  ⟨rfl, by decide, by decide,
   cancel_idempotent (Dict.mk [])
     (Request.mk "10.1.1.1" (some "10.1.1.1") none none) "10.1.1.1"
     rfl (by decide) (by decide)⟩

/-- C10: a present entry whose stored value coerces to NaN is deleted by
the check, which denies; the corrupted entry never yields an allow and
does not survive the first check that reads it. -/
theorem isAllowed_corrupted_purged (d : Dict) (A : String) (v : DictVal)
    (now : Int) (hA : A ≠ "") (hv : Dict.get d A = some v)
    (hnan : jsValToNumber v = JsNum.nan) :
    isAllowed (some d) A now = (false, some (Dict.del d A)) ∧
    Dict.get (Dict.del d A) A = none ∧
    (isAllowed (some (Dict.del d A)) A now).1 = false := by
  refine ⟨?_, Dict.get_del_self .., ?_⟩
  · simp [isAllowed, hA, hv, hnan]
  · simp [isAllowed, hA, Dict.get_del_self]

theorem isAllowed_corrupted_purged_witness :
    "10.0.0.1" ≠ "" ∧
    Dict.get (Dict.mk [("10.0.0.1", DictVal.str "not-a-number", 5)])
      "10.0.0.1" = some (DictVal.str "not-a-number") ∧
    jsValToNumber (DictVal.str "not-a-number") = JsNum.nan ∧
    (isAllowed (some (Dict.mk [("10.0.0.1", DictVal.str "not-a-number", 5)]))
        "10.0.0.1" 0
      = (false, some (Dict.del
          (Dict.mk [("10.0.0.1", DictVal.str "not-a-number", 5)])
          "10.0.0.1")) ∧
     Dict.get (Dict.del
        (Dict.mk [("10.0.0.1", DictVal.str "not-a-number", 5)]) "10.0.0.1")
        "10.0.0.1" = none ∧
     (isAllowed (some (Dict.del
        (Dict.mk [("10.0.0.1", DictVal.str "not-a-number", 5)]) "10.0.0.1"))
        "10.0.0.1" 0).1 = false) :=
  ⟨by decide, by decide, by decide,
   isAllowed_corrupted_purged
     (Dict.mk [("10.0.0.1", DictVal.str "not-a-number", 5)]) "10.0.0.1"
     (DictVal.str "not-a-number") 0 (by decide) (by decide) (by decide)⟩

end VShield
